import Mathlib

/-!
Shallow embedding of the Leo compiler middle-end slice: the AST traversal
framework (visitor.rs, reconstructor.rs), the flattening constant-folding pass
(flatten_expression.rs) and the statement type-checking pass
(check_statements.rs), together with the contract-level collaborators they use
(Constant Value Engine, Symbol Table, Diagnostic Handler).

Rust panics (unwrap, unreachable) are modelled as Option.none results;
fallible engine operations return Except; machine integers are Nat/Int with
explicit range checks.  Components whose sources are not part of this slice
are modelled from the specification and marked as such in their doc comments.
-/

/-- Source location range attached to every AST node; it is used only for
diagnostics and has no semantic effect on evaluation. -/
structure Span where
  lo : Nat
  hi : Nat
deriving DecidableEq

/-- Variable and function names (the compiler interns these as symbols). -/
abbrev Name := String

/-- AST identifier node: a variable reference carrying its source span. -/
structure Identifier where
  name : Name
  span : Span
deriving DecidableEq

/-- Signed or unsigned integer sub-kind of a literal (8 to 128 bits). -/
inductive IntegerType where
  | u8 | u16 | u32 | u64 | u128
  | i8 | i16 | i32 | i64 | i128
deriving DecidableEq

/-- LiteralExpression: a constant value spelled in source form; the integer
case keeps the raw text exactly as the Rust AST does. -/
inductive LiteralExpression where
  | address : String → Span → LiteralExpression
  | boolean : Bool → Span → LiteralExpression
  | field : String → Span → LiteralExpression
  | group : String → LiteralExpression
  | integer : IntegerType → String → Span → LiteralExpression
  | scalar : String → Span → LiteralExpression
  | string : String → Span → LiteralExpression
deriving DecidableEq

/-- Unary operators dispatched by the flattening pass. -/
inductive UnaryOperation where
  | negate
  | not
deriving DecidableEq

/-- Binary operators of the Expression AST (the full list matched by
reconstruct_binary in flatten_expression.rs lines 74-121). -/
inductive BinaryOperation where
  | add | addWrapped | and | bitwiseAnd | div | divWrapped
  | eq | ge | gt | le | lt | mul | mulWrapped
  | nand | neq | nor | or | bitwiseOr
  | pow | powWrapped | shl | shlWrapped | shr | shrWrapped
  | sub | subWrapped | xor
deriving DecidableEq

/-- Err placeholder expression produced only during error recovery in earlier
compilation stages. -/
structure ErrExpression where
  span : Span
deriving DecidableEq

mutual
/-- Reconstructor-family Expression snapshot (reconstructor.rs lines 26-35):
Identifier, Literal, Binary, Unary, Ternary, Call and Err.  The struct fields
of BinaryExpression, UnaryExpression, TernaryExpression and CallExpression are
inlined as constructor arguments in their source field order. -/
inductive Expression where
  | identifier : Identifier → Expression
  | literal : LiteralExpression → Expression
  | binary : Expression → Expression → BinaryOperation → Span → Expression
  | unary : Expression → UnaryOperation → Span → Expression
  | ternary : Expression → Expression → Expression → Span → Expression
  | call : Expression → ExprList → Span → Expression
  | err : ErrExpression → Expression
deriving DecidableEq
/-- Argument vector of a Call expression, kept as its own inductive so the
traversal recursion stays structural. -/
inductive ExprList where
  | nil : ExprList
  | cons : Expression → ExprList → ExprList
deriving DecidableEq
end

/-- Value: the compile-time constant-folding representation, one case per
literal kind, each pairing its payload with the originating span.  Unsigned
payloads are Nat, signed payloads are Int; the range invariant is maintained
by the construction sites. -/
inductive Value where
  | address : String → Span → Value
  | boolean : Bool → Span → Value
  | field : String → Span → Value
  | group : String → Value
  | u8 : Nat → Span → Value
  | u16 : Nat → Span → Value
  | u32 : Nat → Span → Value
  | u64 : Nat → Span → Value
  | u128 : Nat → Span → Value
  | i8 : Int → Span → Value
  | i16 : Int → Span → Value
  | i32 : Int → Span → Value
  | i64 : Int → Span → Value
  | i128 : Int → Span → Value
  | scalar : String → Span → Value
  | string : String → Span → Value
deriving DecidableEq

/-- Evaluation errors of the Constant Value Engine, carrying the offending
span: overflow of a checked operation, division by zero, operand type
mismatch, or an out-of-range shift amount. -/
inductive EngErr where
  | overflow : Span → EngErr
  | divisionByZero : Span → EngErr
  | typeMismatch : Span → EngErr
  | shiftOutOfRange : Span → EngErr
deriving DecidableEq

/-- Parameter mode of an Input declaration; priv stands for the source's
Private mode (a Lean keyword). -/
inductive ParamMode where
  | const
  | public
  | priv
deriving DecidableEq

/-- Declaration record of a variable binding, unified over the two snapshots
in this slice (section 3 and 9 of the data model): the flattening snapshot
carries the optional folded Value on Const and Mut, the type-checking
snapshot's payload-free Const and Mut correspond to a payload of none.
The source's Mut constructor is named mutable here (mut is a Lean keyword). -/
inductive Declaration where
  | const : Option Value → Declaration
  | mutable : Option Value → Declaration
  | input : ParamMode → Declaration
deriving DecidableEq

/-- The slice of the leo Type enum these passes inspect. -/
inductive LType where
  | boolean : LType
  | integer : IntegerType → LType
  | field : LType
  | group : LType
  | scalar : LType
  | address : LType
  | string : LType
  | identifier : Name → LType
deriving DecidableEq

/-- VariableSymbol: declared type, declaration span, and declaration record. -/
structure VariableSymbol where
  type_ : LType
  span : Span
  declaration : Declaration
deriving DecidableEq

/-- Contract of the Constant Value Engine operations invoked by the flattening
pass (its own source is outside this slice, so the pass is parameterized over
any engine with this shape): each operation takes the operands and the
operation's span and returns a Value or an evaluation error. -/
structure ConstValueEngine where
  is_supported_const_fold_type : Value → Bool
  add : Value → Value → Span → Except EngErr Value
  add_wrapped : Value → Value → Span → Except EngErr Value
  sub : Value → Value → Span → Except EngErr Value
  sub_wrapped : Value → Value → Span → Except EngErr Value
  mul : Value → Value → Span → Except EngErr Value
  mul_wrapped : Value → Value → Span → Except EngErr Value
  div : Value → Value → Span → Except EngErr Value
  div_wrapped : Value → Value → Span → Except EngErr Value
  pow : Value → Value → Span → Except EngErr Value
  pow_wrapped : Value → Value → Span → Except EngErr Value
  shl : Value → Value → Span → Except EngErr Value
  shl_wrapped : Value → Value → Span → Except EngErr Value
  shr : Value → Value → Span → Except EngErr Value
  shr_wrapped : Value → Value → Span → Except EngErr Value
  bitand : Value → Value → Span → Except EngErr Value
  bitor : Value → Value → Span → Except EngErr Value
  xor : Value → Value → Span → Except EngErr Value
  eq : Value → Value → Span → Except EngErr Value
  ge : Value → Value → Span → Except EngErr Value
  gt : Value → Value → Span → Except EngErr Value
  le : Value → Value → Span → Except EngErr Value
  lt : Value → Value → Span → Except EngErr Value
  not : Value → Span → Except EngErr Value
  neg : Value → Span → Except EngErr Value

/-- Flattening pass state: the shared read-only Symbol Table handle, viewed as
the association list of bindings visible at this point (nearest binding
first), and the Diagnostic Handler's accumulated engine errors. -/
structure Flattener where
  symbol_table : List (Name × VariableSymbol)
  diags : List EngErr
deriving DecidableEq

/-- Modelled from the spec: SymbolTable lookup_variable as seen by the
flattening pass (section 4.2; the table's source is outside this slice) —
the nearest enclosing binding for the name, here the first association. -/
def Flattener.lookup_variable (fl : Flattener) (n : Name) : Option VariableSymbol :=
  (fl.symbol_table.find? (fun p => p.1 == n)).map Prod.snd

/-- Diagnostic Handler contract (section 4.1): emit_err records the error and
never unwinds; previously recorded diagnostics are never removed. -/
def Flattener.emit_err (fl : Flattener) (e : EngErr) : Flattener :=
  { fl with diags := fl.diags ++ [e] }

/-- Decimal digit value of a character. -/
def digitVal (c : Char) : Option Nat :=
  if c.isDigit then some (c.toNat - 48) else none

/-- Accumulating decimal parser over the remaining characters. -/
def parseDigitsAux : List Char → Nat → Option Nat
  | [], acc => some acc
  | c :: cs, acc =>
      match digitVal c with
      | some d => parseDigitsAux cs (acc * 10 + d)
      | none => none

/-- Parse a nonempty, all-digit decimal character run. -/
def parseNat : List Char → Option Nat
  | [] => none
  | c :: cs => parseDigitsAux (c :: cs) 0

/-- Modelled from the spec: Rust str parse for an integer literal body — an
optional sign followed by a nonempty digit run (the parsing helper itself is
outside this slice). -/
def parseInt (s : String) : Option Int :=
  match s.data with
  | [] => none
  | c :: cs =>
      if c = '-' then (parseNat cs).map (fun n => -(n : Int))
      else if c = '+' then (parseNat cs).map (fun n => (n : Int))
      else (parseNat (c :: cs)).map (fun n => (n : Int))

/-- Range-checked integer parse: the per-width bounds check Rust's typed parse
performs. -/
def parseIntIn (lo hi : Int) (s : String) : Option Int :=
  (parseInt s).bind (fun n => if lo ≤ n ∧ n ≤ hi then some n else none)

/-- Value construction of reconstruct_literal (flatten_expression.rs lines
39-58); the istr.parse().unwrap() calls panic on a malformed or out-of-range
literal, modelled as Option.none. -/
def literal_to_value : LiteralExpression → Option Value
  | .address v s => some (.address v s)
  | .boolean v s => some (.boolean v s)
  | .field v s => some (.field v s)
  | .group v => some (.group v)
  | .integer it istr s =>
      match it with
      | .u8 => (parseIntIn 0 255 istr).map (fun n => .u8 n.toNat s)
      | .u16 => (parseIntIn 0 65535 istr).map (fun n => .u16 n.toNat s)
      | .u32 => (parseIntIn 0 4294967295 istr).map (fun n => .u32 n.toNat s)
      | .u64 => (parseIntIn 0 (2 ^ 64 - 1) istr).map (fun n => .u64 n.toNat s)
      | .u128 => (parseIntIn 0 (2 ^ 128 - 1) istr).map (fun n => .u128 n.toNat s)
      | .i8 => (parseIntIn (-128) 127 istr).map (fun n => .i8 n s)
      | .i16 => (parseIntIn (-32768) 32767 istr).map (fun n => .i16 n s)
      | .i32 => (parseIntIn (-(2 ^ 31)) (2 ^ 31 - 1) istr).map (fun n => .i32 n s)
      | .i64 => (parseIntIn (-(2 ^ 63)) (2 ^ 63 - 1) istr).map (fun n => .i64 n s)
      | .i128 => (parseIntIn (-(2 ^ 127)) (2 ^ 127 - 1) istr).map (fun n => .i128 n s)
  | .scalar v s => some (.scalar v s)
  | .string v s => some (.string v s)

/-- Modelled from the spec: the From Value for LiteralExpression conversion
used by the reconstruct_binary success path ("a new Literal node built from
the resulting Value"); integer payloads are rendered back to decimal text. -/
def Value.into_literal : Value → LiteralExpression
  | .address v s => .address v s
  | .boolean v s => .boolean v s
  | .field v s => .field v s
  | .group v => .group v
  | .u8 n s => .integer .u8 (toString n) s
  | .u16 n s => .integer .u16 (toString n) s
  | .u32 n s => .integer .u32 (toString n) s
  | .u64 n s => .integer .u64 (toString n) s
  | .u128 n s => .integer .u128 (toString n) s
  | .i8 n s => .integer .i8 (toString n) s
  | .i16 n s => .integer .i16 (toString n) s
  | .i32 n s => .integer .i32 (toString n) s
  | .i64 n s => .integer .i64 (toString n) s
  | .i128 n s => .integer .i128 (toString n) s
  | .scalar v s => .scalar v s
  | .string v s => .string v s

/-- The Const and Mut folded-value extraction of reconstruct_identifier
(flatten_expression.rs lines 29-33). -/
def Declaration.folded_value : Declaration → Option Value
  | .const (some c) => some c
  | .mutable (some c) => some c
  | _ => none

/-- Operation dispatch of reconstruct_binary (flatten_expression.rs lines
74-121).  For Nand, Neq and Nor the source emits the inner operation's error
and returns the original node early; that early return is observably the same
as the outer error handling, so the inner step is modelled as Except.bind. -/
def eval_binary_op (eng : ConstValueEngine) (op : BinaryOperation) (l r : Value)
    (s : Span) : Except EngErr Value :=
  match op with
  | .add => eng.add l r s
  | .addWrapped => eng.add_wrapped l r s
  | .and => eng.bitand l r s
  | .bitwiseAnd => eng.bitand l r s
  | .div => eng.div l r s
  | .divWrapped => eng.div_wrapped l r s
  | .eq => eng.eq l r s
  | .ge => eng.ge l r s
  | .gt => eng.gt l r s
  | .le => eng.le l r s
  | .lt => eng.lt l r s
  | .mul => eng.mul l r s
  | .mulWrapped => eng.mul_wrapped l r s
  | .nand => (eng.bitand l r s).bind (fun v => eng.not v s)
  | .neq => (eng.eq l r s).bind (fun v => eng.not v s)
  | .nor => (eng.bitand l r s).bind (fun v => eng.not v s)
  | .or => eng.bitor l r s
  | .bitwiseOr => eng.bitor l r s
  | .pow => eng.pow l r s
  | .powWrapped => eng.pow_wrapped l r s
  | .shl => eng.shl l r s
  | .shlWrapped => eng.shl_wrapped l r s
  | .shr => eng.shr l r s
  | .shrWrapped => eng.shr_wrapped l r s
  | .sub => eng.sub l r s
  | .subWrapped => eng.sub_wrapped l r s
  | .xor => eng.xor l r s

/-- The Negate and Not dispatch of reconstruct_unary (flatten_expression.rs
lines 137-143). -/
def eval_unary_op (eng : ConstValueEngine) (op : UnaryOperation) (v : Value)
    (s : Span) : Except EngErr Value :=
  match op with
  | .negate => eng.neg v s
  | .not => eng.not v s

mutual
/-- ExpressionReconstructor dispatch for the Flattener: identifier, literal,
binary, unary and call are the pass's overrides (flatten_expression.rs),
ternary and err fall back to the trait defaults (reconstructor.rs lines 69-79
and 96-98).  The additional output is the optional folded Value; Option.none
models a Rust panic (the unwraps of reconstruct_identifier and
reconstruct_literal).  State threads the Diagnostic Handler; note that
reconstruct_binary discards the reconstructed child nodes (the source binds
them to underscore at lines 64-65) while keeping the handler effects of
reconstructing them. -/
def reconstruct_expression (eng : ConstValueEngine) :
    Expression → Flattener → Option ((Expression × Option Value) × Flattener)
  | .identifier i, fl =>
      match fl.lookup_variable i.name with
      | none => none
      | some var => some ((.identifier i, var.declaration.folded_value), fl)
  | .literal lit, fl =>
      match literal_to_value lit with
      | none => none
      | some v => some ((.literal lit, some v), fl)
  | .binary l r op s, fl => do
      let ((_, lval), fl1) ← reconstruct_expression eng l fl
      let ((_, rval), fl2) ← reconstruct_expression eng r fl1
      match lval, rval with
      | some lv, some rv =>
          if !eng.is_supported_const_fold_type lv
              && !eng.is_supported_const_fold_type rv then
            some ((.binary l r op s, none), fl2)
          else
            match eval_binary_op eng op lv rv s with
            | .error e => some ((.binary l r op s, none), fl2.emit_err e)
            | .ok v => some ((.literal v.into_literal, some v), fl2)
      | _, _ => some ((.binary l r op s, none), fl2)
  | .unary recv op s, fl => do
      let ((recv', val), fl1) ← reconstruct_expression eng recv fl
      let out : Except EngErr (Option Value) :=
        match val, op with
        | some v, .negate =>
            if eng.is_supported_const_fold_type v then (eng.neg v s).map some
            else .ok none
        | some v, .not =>
            if eng.is_supported_const_fold_type v then (eng.not v s).map some
            else .ok none
        | _, _ => .ok none
      match out with
      | .ok v => some ((.unary recv' op s, v), fl1)
      | .error e => some ((.unary recv op s, none), fl1.emit_err e)
  | .ternary c t f s, fl => do
      let ((c', _), fl1) ← reconstruct_expression eng c fl
      let ((t', _), fl2) ← reconstruct_expression eng t fl1
      let ((f', _), fl3) ← reconstruct_expression eng f fl2
      some ((.ternary c' t' f' s, none), fl3)
  | .call fn args s, fl => do
      let (args', fl1) ← reconstruct_arguments eng args fl
      some ((.call fn args' s, none), fl1)
  | .err e, fl => some ((.err e, none), fl)
/-- Argument mapping of the Flattener's reconstruct_call
(flatten_expression.rs lines 161-174): every argument is reconstructed in
order, each argument's folded value is discarded, and the callee expression is
left unchanged by the caller above. -/
def reconstruct_arguments (eng : ConstValueEngine) :
    ExprList → Flattener → Option (ExprList × Flattener)
  | .nil, fl => some (.nil, fl)
  | .cons a rest, fl => do
      let ((a', _), fl1) ← reconstruct_expression eng a fl
      let (rest', fl2) ← reconstruct_arguments eng rest fl1
      some (.cons a' rest', fl2)
end

mutual
/-- Visitor-family Expression snapshot (visitor.rs lines 28-40): it adds the
Access, Struct and Tuple cases absent from the Reconstructor snapshot. -/
inductive VExpression where
  | access : VAccessExpression → VExpression
  | binary : VExpression → VExpression → BinaryOperation → Span → VExpression
  | call : VExpression → VExprList → Span → VExpression
  | structInit : Span → VExpression
  | err : ErrExpression → VExpression
  | identifier : Identifier → VExpression
  | literal : LiteralExpression → VExpression
  | ternary : VExpression → VExpression → VExpression → Span → VExpression
  | tuple : VExprList → Span → VExpression
  | unary : VExpression → UnaryOperation → Span → VExpression
/-- Access expression cases the default visitor descends into (visitor.rs
lines 43-60); otherAccess stands for the remaining opaque-leaf forms. -/
inductive VAccessExpression where
  | associatedFunction : VExprList → VAccessExpression
  | member : VExpression → VAccessExpression
  | tupleAccess : VExpression → VAccessExpression
  | otherAccess : VAccessExpression
/-- Expression vector of the visitor-family AST. -/
inductive VExprList where
  | nil : VExprList
  | cons : VExpression → VExprList → VExprList
end

mutual
/-- Default ExpressionVisitor walk (visitor.rs lines 28-108) with unit output:
every default method recurses into child expressions; struct literals are not
descended into; visit_err is unreachable, a fatal internal-consistency
violation modelled as Option.none, which any nested Err propagates. -/
def default_visit_expression : VExpression → Option Unit
  | .access a => default_visit_access a
  | .binary l r _ _ => do
      let _ ← default_visit_expression l
      let _ ← default_visit_expression r
      some ()
  | .call _ args _ => default_visit_list args
  | .structInit _ => some ()
  | .err _ => none
  | .identifier _ => some ()
  | .literal _ => some ()
  | .ternary c t f _ => do
      let _ ← default_visit_expression c
      let _ ← default_visit_expression t
      let _ ← default_visit_expression f
      some ()
  | .tuple els _ => default_visit_list els
  | .unary r _ _ => do
      let _ ← default_visit_expression r
      some ()
/-- Default visit_access (visitor.rs lines 43-60). -/
def default_visit_access : VAccessExpression → Option Unit
  | .associatedFunction args => default_visit_list args
  | .member inner => do
      let _ ← default_visit_expression inner
      some ()
  | .tupleAccess t => do
      let _ ← default_visit_expression t
      some ()
  | .otherAccess => some ()
/-- In-order default visit of an expression vector. -/
def default_visit_list : VExprList → Option Unit
  | .nil => some ()
  | .cons e rest => do
      let _ ← default_visit_expression e
      default_visit_list rest
end

/-- Declare kind of a definition statement (leo_ast Declare): the source's
Const and Let. -/
inductive Declare where
  | constDecl
  | letDecl
deriving DecidableEq

/-- Variable-name node of a definition statement; the type checker reads its
identifier. -/
structure VariableName where
  identifier : Identifier
deriving DecidableEq

/-- Return statement: the returned expression and the statement span. -/
structure ReturnStatement where
  expression : Expression
  span : Span
deriving DecidableEq

/-- Definition statement: declaration kind, bound name, declared type,
initializer and span. -/
structure DefinitionStatement where
  declaration_type : Declare
  variable_name : VariableName
  type_ : LType
  value : Expression
  span : Span
deriving DecidableEq

/-- Assignee of an assignment; the type checker reads its identifier and its
span (check_statements.rs lines 63 and 80). -/
structure Assignee where
  identifier : Identifier
  span : Span
deriving DecidableEq

/-- Assign operation kind; opaque to this slice (visit_assign never reads
it). -/
inductive AssignOperation where
  | assign
deriving DecidableEq

/-- Assign statement: operation, assignee, right-hand side and span. -/
structure AssignStatement where
  operation : AssignOperation
  assignee : Assignee
  value : Expression
  span : Span
deriving DecidableEq

/-- Format string with parameter expressions of a console error or log call. -/
structure ConsoleArgs where
  string : String
  parameters : List Expression
  span : Span
deriving DecidableEq

/-- Console functions matched by the type checker (check_statements.rs lines
119-126): Assert, Error and Log. -/
inductive ConsoleFunction where
  | assert : Expression → ConsoleFunction
  | error : ConsoleArgs → ConsoleFunction
  | log : ConsoleArgs → ConsoleFunction
deriving DecidableEq

/-- Console statement wrapper. -/
structure ConsoleStatement where
  function : ConsoleFunction
  span : Span
deriving DecidableEq

mutual
/-- Statement cases dispatched by the type checker's visit_block
(check_statements.rs lines 132-141).  Conditional and Iteration keep their
sub-blocks inline as constructor arguments (condition, block, next, span and
variable, element type, start, stop, inclusive, block, span respectively) so
the mutual recursion stays structural. -/
inductive Statement where
  | ret : ReturnStatement → Statement
  | definition : DefinitionStatement → Statement
  | assign : AssignStatement → Statement
  | conditional : Expression → Block → OptStatement → Span → Statement
  | iteration : Identifier → LType → Expression → Expression → Bool → Block → Span → Statement
  | console : ConsoleStatement → Statement
  | block : Block → Statement
deriving DecidableEq
/-- Block: an ordered statement sequence sharing one lexical scope. -/
inductive Block where
  | mk : StmtList → Span → Block
deriving DecidableEq
/-- Statement vector of a block. -/
inductive StmtList where
  | nil : StmtList
  | cons : Statement → StmtList → StmtList
deriving DecidableEq
/-- Optional trailing branch of a conditional (else-if chains). -/
inductive OptStatement where
  | none : OptStatement
  | some : Statement → OptStatement
deriving DecidableEq
end

/-- Projection of a Block to its statement list. -/
def Block.statements : Block → StmtList
  | .mk stmts _ => stmts

/-- Type-checker-namespace diagnostics observable in this slice
(check_statements.rs and the Symbol Table's redeclaration error), plus an
opaque case for diagnostics produced by collaborators outside the slice. -/
inductive TCDiag where
  | cannotAssignToConstVar : Name → Span → TCDiag
  | cannotAssignToConstInput : Name → Span → TCDiag
  | unknownSym : String → Name → Span → TCDiag
  | redeclaration : Name → Span → TCDiag
  | other : Nat → TCDiag
deriving DecidableEq

/-- One lexical scope: bindings from names to variable symbols, newest
first. -/
abbrev Scope := List (Name × VariableSymbol)

/-- Modelled from the spec: the Symbol Table's scope tree (section 4.2; its
source is outside this slice) as seen from the active scope — the stack of
open nested scopes over the program root scope.  The innermost pushed and not
yet popped scope is the head of scopes. -/
structure SymbolTable where
  scopes : List Scope
  root : Scope
deriving DecidableEq

/-- Modelled from the spec: push_variable_scope opens a nested lexical scope
and never discards outer bindings (section 4.2). -/
def SymbolTable.push_variable_scope (st : SymbolTable) : SymbolTable :=
  { st with scopes := [] :: st.scopes }

/-- Modelled from the spec: pop_variable_scope discards exactly the bindings
introduced since the matching push (section 4.2). -/
def SymbolTable.pop_variable_scope (st : SymbolTable) : SymbolTable :=
  { st with scopes := st.scopes.tail }

/-- First binding for a name within a single scope. -/
def scopeLookup (sc : Scope) (n : Name) : Option VariableSymbol :=
  (sc.find? (fun p => p.1 == n)).map Prod.snd

/-- Innermost-to-outermost search over the open scopes. -/
def lookupInScopes (n : Name) : List Scope → Option VariableSymbol
  | [] => none
  | sc :: rest =>
      match scopeLookup sc n with
      | some v => some v
      | none => lookupInScopes n rest

/-- Modelled from the spec: lookup_variable returns the nearest enclosing
binding, searching innermost-to-outermost and then the program root
(section 4.2). -/
def SymbolTable.lookup_variable (st : SymbolTable) (n : Name) : Option VariableSymbol :=
  match lookupInScopes n st.scopes with
  | some v => some v
  | none => scopeLookup st.root n

/-- Modelled from the spec: insert_variable binds the name in the current
innermost scope and fails with a Redeclaration error when the name is already
bound in that same scope; outer-scope bindings do not conflict
(section 4.2). -/
def SymbolTable.insert_variable (st : SymbolTable) (n : Name) (sym : VariableSymbol) :
    SymbolTable × Option TCDiag :=
  match st.scopes with
  | [] =>
      if (scopeLookup st.root n).isSome then (st, some (.redeclaration n sym.span))
      else ({ st with root := (n, sym) :: st.root }, none)
  | sc :: rest =>
      if (scopeLookup sc n).isSome then (st, some (.redeclaration n sym.span))
      else ({ st with scopes := ((n, sym) :: sc) :: rest }, none)

/-- Program-scope function signature returned by lookup_fn; only the declared
output type is consumed in this slice. -/
structure FnSymbol where
  output : LType
deriving DecidableEq

/-- Modelled from the spec: the type checker collaborators whose sources are
outside this slice — the expression checker visit_expression with its
expected-type hint (returning the diagnostics it emits; it reads but never
restructures the scope stack), validate_ident_type, and the program-wide
lookup_fn (sections 4.2 and 4.9). -/
structure TCEnv where
  visit_expression : Expression → Option LType → List TCDiag
  validate_ident_type : Option LType → List TCDiag
  lookup_fn : Name → Option FnSymbol

/-- Director-wrapped type checker state: the Symbol Table, the Diagnostic
Handler's accumulated diagnostics, the enclosing function identifier (parent)
and the has_return flag (sections 4.6 and 4.9). -/
structure TCState where
  symbol_table : SymbolTable
  diags : List TCDiag
  parent : Option Name
  has_return : Bool
deriving DecidableEq

/-- Diagnostic Handler contract for the type checker: append the emitted
diagnostics in order. -/
def TCState.emit (st : TCState) (ds : List TCDiag) : TCState :=
  { st with diags := st.diags ++ ds }

/-- visit_return (check_statements.rs lines 27-37): the parent unwrap panics
when no enclosing function is set (modelled as Option.none); otherwise look up
the function's output type, validate it, set has_return, and type-check the
returned expression against it. -/
def visit_return (env : TCEnv) (inp : ReturnStatement) (st : TCState) : Option TCState :=
  match st.parent with
  | none => none
  | some parent =>
      let return_type := (env.lookup_fn parent).map FnSymbol.output
      let st := st.emit (env.validate_ident_type return_type)
      let st := { st with has_return := true }
      some (st.emit (env.visit_expression inp.expression return_type))

/-- visit_definition (check_statements.rs lines 39-60): compute the
declaration kind from the Declare, validate the declared type, type-check the
initializer against it, then insert the binding into the current scope,
emitting the Symbol Table's redeclaration error if any. -/
def visit_definition (env : TCEnv) (inp : DefinitionStatement) (st : TCState) : TCState :=
  let declaration :=
    if inp.declaration_type = Declare.constDecl then Declaration.const none
    else Declaration.mutable none
  let st := st.emit (env.validate_ident_type (some inp.type_))
  let st := st.emit (env.visit_expression inp.value (some inp.type_))
  let inserted := st.symbol_table.insert_variable inp.variable_name.identifier.name
    { type_ := inp.type_, span := inp.span, declaration := declaration }
  { st with symbol_table := inserted.1, diags := st.diags ++ inserted.2.toList }

/-- visit_assign (check_statements.rs lines 62-90): look up the assignee;
a Const binding or a Const-mode Input binding yields the corresponding
cannot-assign error yet the right-hand side is still validated and checked
against the binding's declared type; an unresolved assignee yields an
unknown-variable error and the right-hand side is skipped. -/
def visit_assign (env : TCEnv) (inp : AssignStatement) (st : TCState) : TCState :=
  let var_name := inp.assignee.identifier.name
  match st.symbol_table.lookup_variable var_name with
  | some var =>
      let d :=
        match var.declaration with
        | .const _ => [TCDiag.cannotAssignToConstVar var_name var.span]
        | .input .const => [TCDiag.cannotAssignToConstInput var_name var.span]
        | _ => []
      let st := st.emit d
      let st := st.emit (env.validate_ident_type (some var.type_))
      st.emit (env.visit_expression inp.value (some var.type_))
  | none =>
      st.emit [TCDiag.unknownSym "variable" var_name inp.assignee.span]

/-- visit_iteration (check_statements.rs lines 100-116): insert the loop
variable into the current scope as a Const binding of the element type,
validate that type, and type-check the start and stop bounds against it.
The loop body block is not visited by this method. -/
def visit_iteration (env : TCEnv) (var : Identifier) (ty : LType)
    (start stop : Expression) (inclusive : Bool) (body : Block) (sp : Span)
    (st : TCState) : TCState :=
  let inserted := st.symbol_table.insert_variable var.name
    { type_ := ty, span := sp, declaration := Declaration.const none }
  let st := { st with symbol_table := inserted.1, diags := st.diags ++ inserted.2.toList }
  let st := st.emit (env.validate_ident_type (some ty))
  let st := st.emit (env.visit_expression start (some ty))
  st.emit (env.visit_expression stop (some ty))

/-- visit_console (check_statements.rs lines 118-127): assert checks its
expression against Boolean; error and log arguments are not checked in this
slice (the source marks them undetermined). -/
def visit_console (env : TCEnv) (inp : ConsoleStatement) (st : TCState) : TCState :=
  match inp.function with
  | .assert e => st.emit (env.visit_expression e (some LType.boolean))
  | .error _ => st
  | .log _ => st

mutual
/-- Per-case statement dispatch used by visit_block and the conditional's next
branch (check_statements.rs lines 132-141); visit_conditional (lines 92-98) is
inlined in the conditional case: condition against Boolean, then the block,
then the optional next branch. -/
def visit_statement (env : TCEnv) : Statement → TCState → Option TCState
  | .ret r, st => visit_return env r st
  | .definition d, st => some (visit_definition env d st)
  | .assign a, st => some (visit_assign env a st)
  | .conditional cond blk nxt _, st => do
      let st := st.emit (env.visit_expression cond (some LType.boolean))
      let st1 ← visit_block env blk st
      match nxt with
      | .none => some st1
      | .some nstmt => visit_statement env nstmt st1
  | .iteration v ty start stop inc body s, st =>
      some (visit_iteration env v ty start stop inc body s st)
  | .console c, st => some (visit_console env c st)
  | .block b, st => visit_block env b st
/-- visit_block (check_statements.rs lines 129-144): push a new variable
scope, visit every contained statement in source order, pop the scope. -/
def visit_block (env : TCEnv) : Block → TCState → Option TCState
  | .mk stmts _, st => do
      let st := { st with symbol_table := st.symbol_table.push_variable_scope }
      let st1 ← visit_statements env stmts st
      some { st1 with symbol_table := st1.symbol_table.pop_variable_scope }
/-- In-order fold of visit_statement over the statements of a block. -/
def visit_statements (env : TCEnv) : StmtList → TCState → Option TCState
  | .nil, st => some st
  | .cons s rest, st => do
      let st1 ← visit_statement env s st
      visit_statements env rest st1
end

/-- Integer value cases of the Constant Value Engine. -/
inductive IntCase where
  | u8 | u16 | u32 | u64 | u128
  | i8 | i16 | i32 | i64 | i128
deriving DecidableEq

/-- Bit width of an integer case. -/
def IntCase.width : IntCase → Nat
  | .u8 => 8
  | .u16 => 16
  | .u32 => 32
  | .u64 => 64
  | .u128 => 128
  | .i8 => 8
  | .i16 => 16
  | .i32 => 32
  | .i64 => 64
  | .i128 => 128

/-- Signedness of an integer case. -/
def IntCase.signed : IntCase → Bool
  | .i8 => true
  | .i16 => true
  | .i32 => true
  | .i64 => true
  | .i128 => true
  | _ => false

/-- Smallest representable value of an integer case. -/
def IntCase.lo (c : IntCase) : Int :=
  if c.signed then -(2 ^ (c.width - 1)) else 0

/-- Largest representable value of an integer case. -/
def IntCase.hi (c : IntCase) : Int :=
  if c.signed then 2 ^ (c.width - 1) - 1 else 2 ^ c.width - 1

/-- View of an integer Value as its case and mathematical payload. -/
def Value.as_int : Value → Option (IntCase × Int)
  | .u8 n _ => some (.u8, (n : Int))
  | .u16 n _ => some (.u16, (n : Int))
  | .u32 n _ => some (.u32, (n : Int))
  | .u64 n _ => some (.u64, (n : Int))
  | .u128 n _ => some (.u128, (n : Int))
  | .i8 n _ => some (.i8, n)
  | .i16 n _ => some (.i16, n)
  | .i32 n _ => some (.i32, n)
  | .i64 n _ => some (.i64, n)
  | .i128 n _ => some (.i128, n)
  | _ => none

/-- Rebuild an integer Value from its case and an in-range payload. -/
def mk_int_value (c : IntCase) (v : Int) (s : Span) : Value :=
  match c with
  | .u8 => .u8 v.toNat s
  | .u16 => .u16 v.toNat s
  | .u32 => .u32 v.toNat s
  | .u64 => .u64 v.toNat s
  | .u128 => .u128 v.toNat s
  | .i8 => .i8 v s
  | .i16 => .i16 v s
  | .i32 => .i32 v s
  | .i64 => .i64 v s
  | .i128 => .i128 v s

/-- Modelled from the spec: checked arithmetic of the Constant Value Engine
(section 4.3) — both operands must be the same integer case, the exact result
must be representable, otherwise overflow; non-integer or mixed operand cases
are a type mismatch.  The engine's own source is outside this slice. -/
def checked_arith (f : Int → Int → Int) (l r : Value) (s : Span) : Except EngErr Value :=
  match l.as_int, r.as_int with
  | some (c1, a), some (c2, b) =>
      if c1 = c2 then
        if c1.lo ≤ f a b ∧ f a b ≤ c1.hi then .ok (mk_int_value c1 (f a b) s)
        else .error (.overflow s)
      else .error (.typeMismatch s)
  | _, _ => .error (.typeMismatch s)

/-- Modelled from the spec: wrapped arithmetic — the same operation taken
modulo the operand's bit width, never failing on overflow (section 4.3). -/
def wrapped_arith (f : Int → Int → Int) (l r : Value) (s : Span) : Except EngErr Value :=
  match l.as_int, r.as_int with
  | some (c1, a), some (c2, b) =>
      if c1 = c2 then
        .ok (mk_int_value c1 ((f a b - c1.lo).emod (2 ^ c1.width) + c1.lo) s)
      else .error (.typeMismatch s)
  | _, _ => .error (.typeMismatch s)

/-- Modelled from the spec: checked division — division by zero fails, and the
quotient must be representable (truncating division as in Rust). -/
def checked_div (l r : Value) (s : Span) : Except EngErr Value :=
  match l.as_int, r.as_int with
  | some (c1, a), some (c2, b) =>
      if c1 = c2 then
        if b = 0 then .error (.divisionByZero s)
        else if c1.lo ≤ Int.tdiv a b ∧ Int.tdiv a b ≤ c1.hi then
          .ok (mk_int_value c1 (Int.tdiv a b) s)
        else .error (.overflow s)
      else .error (.typeMismatch s)
  | _, _ => .error (.typeMismatch s)

/-- Modelled from the spec: wrapped division — still fails on division by
zero, wraps the one overflowing quotient (section 4.3). -/
def wrapped_div (l r : Value) (s : Span) : Except EngErr Value :=
  match l.as_int, r.as_int with
  | some (c1, a), some (c2, b) =>
      if c1 = c2 then
        if b = 0 then .error (.divisionByZero s)
        else .ok (mk_int_value c1 ((Int.tdiv a b - c1.lo).emod (2 ^ c1.width) + c1.lo) s)
      else .error (.typeMismatch s)
  | _, _ => .error (.typeMismatch s)

/-- Modelled from the spec: comparison over same-case integer operands,
returning a Boolean Value (section 4.3). -/
def compare_vals (f : Int → Int → Bool) (l r : Value) (s : Span) : Except EngErr Value :=
  match l.as_int, r.as_int with
  | some (c1, a), some (c2, b) =>
      if c1 = c2 then .ok (.boolean (f a b) s) else .error (.typeMismatch s)
  | _, _ => .error (.typeMismatch s)

/-- Modelled from the spec: equality over Booleans or same-case integers. -/
def eq_vals (l r : Value) (s : Span) : Except EngErr Value :=
  match l, r with
  | .boolean a _, .boolean b _ => .ok (.boolean (a == b) s)
  | _, _ => compare_vals (fun a b => a == b) l r s

/-- Modelled from the spec: bitwise and logical binary operations over Boolean
or unsigned-integer operands (section 4.3); the signed-integer bit patterns
are not exercised by any theorem instance here and this sample engine reports
them as a type mismatch. -/
def bit_op (fb : Bool → Bool → Bool) (fn : Nat → Nat → Nat) (l r : Value)
    (s : Span) : Except EngErr Value :=
  match l, r with
  | .boolean a _, .boolean b _ => .ok (.boolean (fb a b) s)
  | .u8 a _, .u8 b _ => .ok (.u8 (fn a b) s)
  | .u16 a _, .u16 b _ => .ok (.u16 (fn a b) s)
  | .u32 a _, .u32 b _ => .ok (.u32 (fn a b) s)
  | .u64 a _, .u64 b _ => .ok (.u64 (fn a b) s)
  | .u128 a _, .u128 b _ => .ok (.u128 (fn a b) s)
  | _, _ => .error (.typeMismatch s)

/-- Modelled from the spec: logical or bitwise complement over Boolean or
integer operands (two's complement for the signed cases). -/
def not_val (v : Value) (s : Span) : Except EngErr Value :=
  match v with
  | .boolean b _ => .ok (.boolean (!b) s)
  | .u8 n _ => .ok (.u8 (255 - n) s)
  | .u16 n _ => .ok (.u16 (65535 - n) s)
  | .u32 n _ => .ok (.u32 (4294967295 - n) s)
  | .u64 n _ => .ok (.u64 (2 ^ 64 - 1 - n) s)
  | .u128 n _ => .ok (.u128 (2 ^ 128 - 1 - n) s)
  | .i8 n _ => .ok (.i8 (-(n + 1)) s)
  | .i16 n _ => .ok (.i16 (-(n + 1)) s)
  | .i32 n _ => .ok (.i32 (-(n + 1)) s)
  | .i64 n _ => .ok (.i64 (-(n + 1)) s)
  | .i128 n _ => .ok (.i128 (-(n + 1)) s)
  | _ => .error (.typeMismatch s)

/-- Modelled from the spec: arithmetic negation, defined for the signed
integer cases and failing on the one overflowing input per width. -/
def neg_val (v : Value) (s : Span) : Except EngErr Value :=
  match v.as_int with
  | some (c, a) =>
      if c.signed then
        if c.lo ≤ -a ∧ -a ≤ c.hi then .ok (mk_int_value c (-a) s)
        else .error (.overflow s)
      else .error (.typeMismatch s)
  | none => .error (.typeMismatch s)

/-- Modelled from the spec: checked left shift — fails when the shift amount
is out of range for the operand's width; shifted-out bits are discarded. -/
def shl_checked (l r : Value) (s : Span) : Except EngErr Value :=
  match l.as_int, r.as_int with
  | some (c1, a), some (_, b) =>
      if 0 ≤ b ∧ b < (c1.width : Int) then
        .ok (mk_int_value c1 ((a * 2 ^ b.toNat - c1.lo).emod (2 ^ c1.width) + c1.lo) s)
      else .error (.shiftOutOfRange s)
  | _, _ => .error (.typeMismatch s)

/-- Modelled from the spec: wrapped left shift — the shift amount is taken
modulo the operand's bit width. -/
def shl_wrapped_val (l r : Value) (s : Span) : Except EngErr Value :=
  match l.as_int, r.as_int with
  | some (c1, a), some (_, b) =>
      .ok (mk_int_value c1
        ((a * 2 ^ (b.emod (c1.width : Int)).toNat - c1.lo).emod (2 ^ c1.width) + c1.lo) s)
  | _, _ => .error (.typeMismatch s)

/-- Modelled from the spec: checked right shift (arithmetic for signed,
logical for unsigned; floor division by the power of two). -/
def shr_checked (l r : Value) (s : Span) : Except EngErr Value :=
  match l.as_int, r.as_int with
  | some (c1, a), some (_, b) =>
      if 0 ≤ b ∧ b < (c1.width : Int) then
        .ok (mk_int_value c1 (Int.fdiv a (2 ^ b.toNat)) s)
      else .error (.shiftOutOfRange s)
  | _, _ => .error (.typeMismatch s)

/-- Modelled from the spec: wrapped right shift — the shift amount is taken
modulo the operand's bit width. -/
def shr_wrapped_val (l r : Value) (s : Span) : Except EngErr Value :=
  match l.as_int, r.as_int with
  | some (c1, a), some (_, b) =>
      .ok (mk_int_value c1 (Int.fdiv a (2 ^ (b.emod (c1.width : Int)).toNat)) s)
  | _, _ => .error (.typeMismatch s)

/-- Modelled from the spec: checked exponentiation over a non-negative
exponent, failing on overflow. -/
def pow_checked (l r : Value) (s : Span) : Except EngErr Value :=
  match l.as_int, r.as_int with
  | some (c1, a), some (_, b) =>
      if 0 ≤ b then
        if c1.lo ≤ a ^ b.toNat ∧ a ^ b.toNat ≤ c1.hi then
          .ok (mk_int_value c1 (a ^ b.toNat) s)
        else .error (.overflow s)
      else .error (.typeMismatch s)
  | _, _ => .error (.typeMismatch s)

/-- Modelled from the spec: wrapped exponentiation — the result is taken
modulo the operand's bit width. -/
def pow_wrapped_val (l r : Value) (s : Span) : Except EngErr Value :=
  match l.as_int, r.as_int with
  | some (c1, a), some (_, b) =>
      if 0 ≤ b then
        .ok (mk_int_value c1 ((a ^ b.toNat - c1.lo).emod (2 ^ c1.width) + c1.lo) s)
      else .error (.typeMismatch s)
  | _, _ => .error (.typeMismatch s)

/-- Modelled from the spec: a concrete Constant Value Engine instance
(section 4.3) used to instantiate the engine-parametric theorems at concrete
inputs; its fold-eligible cases are the Boolean and integer kinds (the
minimum section 9 requires of an implementer). -/
def leoEngine : ConstValueEngine where
  is_supported_const_fold_type := fun v =>
    match v with
    | .boolean _ _ => true
    | .u8 _ _ => true
    | .u16 _ _ => true
    | .u32 _ _ => true
    | .u64 _ _ => true
    | .u128 _ _ => true
    | .i8 _ _ => true
    | .i16 _ _ => true
    | .i32 _ _ => true
    | .i64 _ _ => true
    | .i128 _ _ => true
    | _ => false
  add := checked_arith (· + ·)
  add_wrapped := wrapped_arith (· + ·)
  sub := checked_arith (· - ·)
  sub_wrapped := wrapped_arith (· - ·)
  mul := checked_arith (· * ·)
  mul_wrapped := wrapped_arith (· * ·)
  div := checked_div
  div_wrapped := wrapped_div
  pow := pow_checked
  pow_wrapped := pow_wrapped_val
  shl := shl_checked
  shl_wrapped := shl_wrapped_val
  shr := shr_checked
  shr_wrapped := shr_wrapped_val
  bitand := bit_op (fun a b => a && b) Nat.land
  bitor := bit_op (fun a b => a || b) Nat.lor
  xor := bit_op Bool.xor Nat.xor
  eq := eq_vals
  ge := compare_vals (fun a b => b ≤ a)
  gt := compare_vals (fun a b => b < a)
  le := compare_vals (fun a b => a ≤ b)
  lt := compare_vals (fun a b => a < b)
  not := not_val
  neg := neg_val


/-- Shared span of the concrete instances below. -/
def sp0 : Span := ⟨0, 0⟩

/-- The u8 literal 2. -/
def lit2 : Expression := .literal (.integer .u8 "2" sp0)

/-- The u8 literal 3. -/
def lit3 : Expression := .literal (.integer .u8 "3" sp0)

/-- The u8 literal 255. -/
def lit255 : Expression := .literal (.integer .u8 "255" sp0)

/-- The u8 literal 1. -/
def lit1 : Expression := .literal (.integer .u8 "1" sp0)

/-- The constant subexpression 2 + 3. -/
def innerAdd : Expression := .binary lit2 lit3 .add sp0

/-- The non-constant variable x. -/
def xId : Identifier := ⟨"x", sp0⟩

/-- Flattener state binding x as a Mut variable with no folded value. -/
def flX : Flattener := ⟨[("x", ⟨.integer .u8, sp0, .mutable none⟩)], []⟩

/-- The expression (2 + 3) + x. -/
def topAdd : Expression := .binary innerAdd (.identifier xId) .add sp0

/-- Flattener state with no bindings and no diagnostics. -/
def fl0 : Flattener := ⟨[], []⟩

/-- Flattener state binding y as a Const variable with folded value 7u8. -/
def flY : Flattener := ⟨[("y", ⟨.integer .u8, sp0, .const (some (.u8 7 sp0))⟩)], []⟩

/-- Type-checker environment whose expression checker emits one marker
diagnostic per visited expression, so the number of expression visits is
observable in the diagnostic list. -/
def envMark : TCEnv := ⟨fun _ _ => [TCDiag.other 0], fun _ => [], fun _ => none⟩

/-- Type-checker state with an empty root scope and no open scopes. -/
def stEmpty : TCState := ⟨⟨[], []⟩, [], none, false⟩

/-- Definition statement: let x: u8 = 1. -/
def defX : DefinitionStatement :=
  ⟨.letDecl, ⟨⟨"x", sp0⟩⟩, .integer .u8, .literal (.integer .u8 "1" sp0), sp0⟩

/-- Statement sequence of the concrete block: a definition followed by an
empty nested block. -/
def stmts0 : StmtList := .cons (.definition defX) (.cons (.block (Block.mk .nil sp0)) .nil)

/-- The state after visiting that block from stEmpty: one marker diagnostic
from the definition's initializer, scope stack back to empty. -/
def stAfterBlock : TCState := ⟨⟨[], []⟩, [TCDiag.other 0], none, false⟩

/-- Definition statement inside the loop body: let y: u8 = 1. -/
def defY : DefinitionStatement :=
  ⟨.letDecl, ⟨⟨"y", sp0⟩⟩, .integer .u8, .literal (.integer .u8 "1" sp0), sp0⟩

/-- Loop body containing one definition statement; were the body visited, its
initializer would add a third marker diagnostic and a binding for y. -/
def bodyB : Block := Block.mk (.cons (.definition defY) .nil) sp0

/-- The iteration statement: for i: u32 in 0..10 with the body above. -/
def iterI : Statement :=
  .iteration ⟨"i", sp0⟩ (.integer .u32) (.literal (.integer .u32 "0" sp0))
    (.literal (.integer .u32 "10" sp0)) false bodyB sp0

/-- Type-checker state with one open (empty) scope. -/
def stOneScope : TCState := ⟨⟨[[]], []⟩, [], none, false⟩

/-- The loop variable's symbol: a Const binding of type u32. -/
def symI : VariableSymbol := ⟨.integer .u32, sp0, .const none⟩

/-- The state actually produced by visiting the iteration from stOneScope:
exactly two marker diagnostics (start and stop) and the loop variable
inserted into the already-open scope. -/
def stAfterIter : TCState := ⟨⟨[[("i", symI)]], []⟩, [TCDiag.other 0, TCDiag.other 0], none, false⟩

/-- The symbol of a Const variable c of type u8. -/
def symC : VariableSymbol := ⟨.integer .u8, sp0, .const none⟩

/-- Type-checker state with c bound as a Const variable in the open scope. -/
def stConstX : TCState := ⟨⟨[[("c", symC)]], []⟩, [], none, false⟩

/-- The assignment c = 2 targeting the Const binding. -/
def assignC : AssignStatement := ⟨.assign, ⟨⟨"c", sp0⟩, sp0⟩, .literal (.integer .u8 "2" sp0), sp0⟩
/-- Inserting a binding never changes the number of open scopes. -/
theorem insert_variable_scopes_length (st : SymbolTable) (n : Name) (sym : VariableSymbol) :
    (st.insert_variable n sym).1.scopes.length = st.scopes.length := by
  rcases st with ⟨scopes, root⟩
  cases scopes <;> simp [SymbolTable.insert_variable] <;> split <;> simp

/-- visit_return leaves the symbol table untouched. -/
theorem visit_return_depth (env : TCEnv) (r : ReturnStatement) (st st' : TCState)
    (h : visit_return env r st = some st') :
    st'.symbol_table.scopes.length = st.symbol_table.scopes.length := by
  unfold visit_return at h
  cases hp : st.parent <;> rw [hp] at h
  · cases h
  · cases h
    simp [TCState.emit]

/-- visit_definition only inserts into the current scope, preserving the
scope-stack depth. -/
theorem visit_definition_depth (env : TCEnv) (d : DefinitionStatement) (st : TCState) :
    (visit_definition env d st).symbol_table.scopes.length
      = st.symbol_table.scopes.length := by
  simp [visit_definition, TCState.emit, insert_variable_scopes_length]

/-- visit_assign leaves the symbol table untouched. -/
theorem visit_assign_depth (env : TCEnv) (a : AssignStatement) (st : TCState) :
    (visit_assign env a st).symbol_table.scopes.length
      = st.symbol_table.scopes.length := by
  unfold visit_assign
  rcases h : st.symbol_table.lookup_variable a.assignee.identifier.name with _ | var <;>
    simp [h, TCState.emit]

/-- visit_iteration only inserts into the current scope, preserving the
scope-stack depth. -/
theorem visit_iteration_depth (env : TCEnv) (v : Identifier) (ty : LType)
    (start stop : Expression) (inc : Bool) (body : Block) (sp : Span) (st : TCState) :
    (visit_iteration env v ty start stop inc body sp st).symbol_table.scopes.length
      = st.symbol_table.scopes.length := by
  simp [visit_iteration, TCState.emit, insert_variable_scopes_length]

/-- visit_console leaves the symbol table untouched. -/
theorem visit_console_depth (env : TCEnv) (c : ConsoleStatement) (st : TCState) :
    (visit_console env c st).symbol_table.scopes.length
      = st.symbol_table.scopes.length := by
  unfold visit_console
  cases c.function <;> simp [TCState.emit]

mutual
/-- Every statement visit, when it completes, preserves the scope-stack
depth. -/
theorem visit_statement_depth (env : TCEnv) (s : Statement) :
    ∀ st st', visit_statement env s st = some st' →
      st'.symbol_table.scopes.length = st.symbol_table.scopes.length := by
  cases s with
  | ret r =>
      intro st st' h
      rw [visit_statement] at h
      exact visit_return_depth env r st st' h
  | definition d =>
      intro st st' h
      rw [visit_statement] at h
      cases h
      exact visit_definition_depth env d st
  | assign a =>
      intro st st' h
      rw [visit_statement] at h
      cases h
      exact visit_assign_depth env a st
  | conditional cond blk nxt sp =>
      intro st st' h
      rw [visit_statement] at h
      rcases hb : visit_block env blk
          (st.emit (env.visit_expression cond (some LType.boolean))) with _ | st1 <;>
        rw [hb] at h
      · cases h
      · have hd1 := visit_block_depth env blk _ st1 hb
        simp only [TCState.emit] at hd1
        cases nxt with
        | none =>
            simp at h
            subst h
            exact hd1
        | some nstmt =>
            simp at h
            have hd2 := visit_statement_depth env nstmt st1 st' h
            omega
  | iteration v ty start stop inc body sp =>
      intro st st' h
      rw [visit_statement] at h
      cases h
      exact visit_iteration_depth env v ty start stop inc body sp st
  | console c =>
      intro st st' h
      rw [visit_statement] at h
      cases h
      exact visit_console_depth env c st
  | block b =>
      intro st st' h
      rw [visit_statement] at h
      exact visit_block_depth env b st st' h
/-- Every completed block visit restores the scope-stack depth: the one pushed
scope is popped again after the statements. -/
theorem visit_block_depth (env : TCEnv) (b : Block) :
    ∀ st st', visit_block env b st = some st' →
      st'.symbol_table.scopes.length = st.symbol_table.scopes.length := by
  cases b with
  | mk stmts sp =>
      intro st st' h
      rw [visit_block] at h
      rcases hs : visit_statements env stmts
          { st with symbol_table := st.symbol_table.push_variable_scope } with _ | st1 <;>
        rw [hs] at h
      · cases h
      · simp at h
        subst h
        have hd := visit_statements_depth env stmts _ st1 hs
        simp [SymbolTable.push_variable_scope] at hd
        simp [SymbolTable.pop_variable_scope, List.length_tail]
        omega
/-- Visiting a statement sequence, when it completes, preserves the
scope-stack depth. -/
theorem visit_statements_depth (env : TCEnv) (l : StmtList) :
    ∀ st st', visit_statements env l st = some st' →
      st'.symbol_table.scopes.length = st.symbol_table.scopes.length := by
  cases l with
  | nil =>
      intro st st' h
      rw [visit_statements] at h
      cases h
      rfl
  | cons s rest =>
      intro st st' h
      rw [visit_statements] at h
      rcases h1 : visit_statement env s st with _ | st1 <;> rw [h1] at h
      · cases h
      · simp at h
        have a1 := visit_statement_depth env s st st1 h1
        have a2 := visit_statements_depth env rest st1 st' h
        omega
end

/-- C1 counterexample: flattening (2+3)+x with x non-constant returns the whole
tree unchanged — the Binary node 2+3 is still at its position in the output,
with no Literal 5 in its place — even though flattening 2+3 on its own does
produce the Literal 5 (second conjunct). -/
theorem nested_const_subexpr_not_replaced_cex :
    reconstruct_expression leoEngine topAdd flX =
      some ((Expression.binary (Expression.binary lit2 lit3 .add sp0)
        (.identifier xId) .add sp0, none), flX)
    ∧ reconstruct_expression leoEngine innerAdd flX =
      some ((Expression.literal (.integer .u8 "5" sp0), some (.u8 5 sp0)), flX) :=
  ⟨rfl, rfl⟩

/-- C1 amended: a Binary node is replaced by a single Literal only when both
of its immediate operands produce constant Values; when one operand is not
constant, reconstruct_binary discards the reconstructed children and returns
the original Binary node unchanged (keeping only the handler effects), so a
constant subexpression nested inside such a parent is not replaced in the
returned tree. -/
theorem reconstruct_binary_discards_children_when_not_fully_const
    (eng : ConstValueEngine) (l r : Expression) (op : BinaryOperation) (s : Span)
    (fl fl1 fl2 : Flattener) (l' r' : Expression) (lv : Value)
    (hl : reconstruct_expression eng l fl = some ((l', some lv), fl1))
    (hr : reconstruct_expression eng r fl1 = some ((r', none), fl2)) :
    reconstruct_expression eng (.binary l r op s) fl =
      some ((.binary l r op s, none), fl2) := by
  rw [reconstruct_expression]
  simp only [hl, hr, Option.some_bind]
  simp [hr]

/-- Witness for the amended C1 theorem at (2+3)+x. -/
theorem reconstruct_binary_discards_children_witness :
    reconstruct_expression leoEngine topAdd flX = some ((topAdd, none), flX) :=
  reconstruct_binary_discards_children_when_not_fully_const leoEngine innerAdd
    (.identifier xId) .add sp0 flX flX flX (.literal (.integer .u8 "5" sp0))
    (.identifier xId) (.u8 5 sp0) (by decide) (by decide)

/-- C3: when both operands of a Binary expression reconstruct to constant
Values, at least one of them fold-eligible, and the engine operation succeeds,
the Flattening Pass returns a Literal built from the resulting Value in place
of the Binary node and propagates that Value as the additional output. -/
theorem reconstruct_binary_folds_to_literal (eng : ConstValueEngine)
    (l r : Expression) (op : BinaryOperation) (s : Span) (fl fl1 fl2 : Flattener)
    (l' r' : Expression) (lv rv v : Value)
    (hl : reconstruct_expression eng l fl = some ((l', some lv), fl1))
    (hr : reconstruct_expression eng r fl1 = some ((r', some rv), fl2))
    (he : eng.is_supported_const_fold_type lv = true
      ∨ eng.is_supported_const_fold_type rv = true)
    (hop : eval_binary_op eng op lv rv s = .ok v) :
    reconstruct_expression eng (.binary l r op s) fl =
      some ((.literal v.into_literal, some v), fl2) := by
  rw [reconstruct_expression]
  simp only [hl, hr, Option.some_bind]
  rcases he with h | h <;> simp [hr, h, hop]

/-- Witness for C3 at 2+3 over u8: the Binary node becomes the Literal 5 and
the Value 5 is propagated. -/
theorem reconstruct_binary_folds_to_literal_witness :
    reconstruct_expression leoEngine innerAdd fl0 =
      some ((.literal (.integer .u8 "5" sp0), some (.u8 5 sp0)), fl0) :=
  reconstruct_binary_folds_to_literal leoEngine lit2 lit3 .add sp0 fl0 fl0 fl0
    lit2 lit3 (.u8 2 sp0) (.u8 3 sp0) (.u8 5 sp0) (by decide) (by decide)
    (Or.inl (by decide)) (by rfl)

/-- C6: when both operands of a Binary expression reconstruct to constant
Values (the fold-eligibility guard not applying) and the engine operation
fails, the Flattening Pass emits the engine's error through the Diagnostic
Handler and returns the original Binary node with no folded output — the
failure is absorbed into a some result, never a panic. -/
theorem reconstruct_binary_engine_failure_absorbed (eng : ConstValueEngine)
    (l r : Expression) (op : BinaryOperation) (s : Span) (fl fl1 fl2 : Flattener)
    (l' r' : Expression) (lv rv : Value) (e : EngErr)
    (hl : reconstruct_expression eng l fl = some ((l', some lv), fl1))
    (hr : reconstruct_expression eng r fl1 = some ((r', some rv), fl2))
    (he : eng.is_supported_const_fold_type lv = true
      ∨ eng.is_supported_const_fold_type rv = true)
    (hop : eval_binary_op eng op lv rv s = .error e) :
    reconstruct_expression eng (.binary l r op s) fl =
      some ((.binary l r op s, none), fl2.emit_err e) := by
  rw [reconstruct_expression]
  simp only [hl, hr, Option.some_bind]
  rcases he with h | h <;> simp [hr, h, hop]

/-- Witness for C6 at the checked overflow 255+1 over u8: the overflow error
is recorded by the handler and the original Binary node is returned. -/
theorem reconstruct_binary_engine_failure_witness :
    reconstruct_expression leoEngine (.binary lit255 lit1 .add sp0) fl0 =
      some ((.binary lit255 lit1 .add sp0, none), fl0.emit_err (.overflow sp0)) :=
  reconstruct_binary_engine_failure_absorbed leoEngine lit255 lit1 .add sp0
    fl0 fl0 fl0 lit255 lit1 (.u8 255 sp0) (.u8 1 sp0) (.overflow sp0)
    (by decide) (by decide) (Or.inl (by decide)) (by rfl)

/-- C7: when the receiver of a Unary expression reconstructs to a
fold-eligible constant Value and the Negate or Not operation succeeds, the
Flattening Pass returns a Unary node whose receiver is the reconstructed
receiver — it does not collapse the node to a Literal — while propagating the
computed Value as the additional output. -/
theorem reconstruct_unary_keeps_node_shape (eng : ConstValueEngine)
    (recv : Expression) (op : UnaryOperation) (s : Span) (fl fl1 : Flattener)
    (recv' : Expression) (v w : Value)
    (h : reconstruct_expression eng recv fl = some ((recv', some v), fl1))
    (hs : eng.is_supported_const_fold_type v = true)
    (hop : eval_unary_op eng op v s = .ok w) :
    reconstruct_expression eng (.unary recv op s) fl =
      some ((.unary recv' op s, some w), fl1) := by
  rw [reconstruct_expression]
  simp only [h, Option.some_bind]
  cases op <;> simp [eval_unary_op] at hop <;> simp [hs, hop, Except.map]

/-- Witness for C7 at Not over the Boolean literal true: the result stays a
Unary node and the propagated Value is false. -/
theorem reconstruct_unary_keeps_node_shape_witness :
    reconstruct_expression leoEngine (.unary (.literal (.boolean true sp0)) .not sp0) fl0 =
      some ((.unary (.literal (.boolean true sp0)) .not sp0, some (.boolean false sp0)), fl0) :=
  reconstruct_unary_keeps_node_shape leoEngine (.literal (.boolean true sp0)) .not sp0
    fl0 fl0 (.literal (.boolean true sp0)) (.boolean true sp0) (.boolean false sp0)
    (by decide) (by decide) (by rfl)

/-- C8: for every engine and pair of operand Values the flattening dispatch
computes Nor exactly as Nand, namely not(bitand(l,r)) — not the conventional
not(bitor(l,r)); on the sample engine, Nor over true,false folds to true where
a conventional NOR would give false. -/
theorem nor_folds_like_nand :
    (∀ (eng : ConstValueEngine) (l r : Value) (s : Span),
      eval_binary_op eng .nor l r s = eval_binary_op eng .nand l r s
      ∧ eval_binary_op eng .nor l r s = (eng.bitand l r s).bind (fun v => eng.not v s))
    ∧ eval_binary_op leoEngine .nor (.boolean true sp0) (.boolean false sp0) sp0
        = .ok (.boolean true sp0) :=
  ⟨fun _ _ _ _ => ⟨rfl, rfl⟩, rfl⟩

/-- C9 counterexample: the Flattening Pass visits an Err expression without
any fatal effect — the result is a some (not the none that models a panic),
the node is returned unchanged, and no diagnostic is recorded. -/
theorem flattener_err_passthrough_cex :
    reconstruct_expression leoEngine (.err ⟨sp0⟩) flX = some ((.err ⟨sp0⟩, none), flX)
    ∧ (reconstruct_expression leoEngine (.err ⟨sp0⟩) flX).isSome = true
    ∧ flX.diags = [] :=
  ⟨rfl, rfl, rfl⟩

/-- C9 amended: an Err expression is a fatal internal-consistency violation in
the Visitor family — the default visit_expression dispatches it to the
unreachable visit_err — but the Reconstructor default reconstruct_err, which
the Flattener does not override, returns the Err node unchanged with no
additional output, a silent pass-through. -/
theorem err_expression_handling :
    (∀ e : ErrExpression, default_visit_expression (.err e) = none)
    ∧ (∀ (eng : ConstValueEngine) (e : ErrExpression) (fl : Flattener),
        reconstruct_expression eng (.err e) fl = some ((.err e, none), fl)) :=
  ⟨fun _ => rfl, fun _ _ _ => rfl⟩

/-- C10: reconstruct_identifier is partial — it panics on a name with no
binding in the symbol table (the unwrap of the failed lookup), and under the
precondition that the name is bound it returns the Identifier node unchanged
and propagates the stored folded Value as the additional output exactly when
the binding's declaration is Const or Mut carrying a Value. -/
theorem reconstruct_identifier_partial_behavior (eng : ConstValueEngine)
    (i : Identifier) (fl : Flattener) :
    (fl.lookup_variable i.name = none →
      reconstruct_expression eng (.identifier i) fl = none)
    ∧ (∀ var, fl.lookup_variable i.name = some var →
        reconstruct_expression eng (.identifier i) fl =
          some ((.identifier i, var.declaration.folded_value), fl))
    ∧ (∀ (d : Declaration) (v : Value),
        d.folded_value = some v ↔ d = .const (some v) ∨ d = .mutable (some v)) := by
  refine ⟨?_, ?_, ?_⟩
  · intro h
    rw [reconstruct_expression, h]
  · intro var h
    rw [reconstruct_expression, h]
  · intro d v
    cases d with
    | const o => cases o <;> simp [Declaration.folded_value]
    | mutable o => cases o <;> simp [Declaration.folded_value]
    | input m => simp [Declaration.folded_value]

/-- Witness for C10 at a Const binding of y carrying the folded value 7u8:
the lookup succeeds and the stored Value is propagated. -/
theorem reconstruct_identifier_partial_behavior_witness :
    reconstruct_expression leoEngine (.identifier ⟨"y", sp0⟩) flY =
      some ((.identifier ⟨"y", sp0⟩, some (.u8 7 sp0)), flY) :=
  (reconstruct_identifier_partial_behavior leoEngine ⟨"y", sp0⟩ flY).2.1
    ⟨.integer .u8, sp0, .const (some (.u8 7 sp0))⟩ (by decide)

/-- C2 counterexample: visiting the iteration statement for i: u32 in 0..10
whose body contains a definition produces exactly two expression checks (the
start and stop bounds — the marker diagnostics) and no visit of the body, and
the loop variable i is inserted into the already-open enclosing scope, where
it remains visible after the statement. -/
theorem visit_iteration_skips_body_cex :
    visit_statement envMark iterI stOneScope = some stAfterIter
    ∧ stAfterIter.diags = [TCDiag.other 0, TCDiag.other 0]
    ∧ stAfterIter.symbol_table.lookup_variable "i" = some symI
    ∧ stAfterIter.symbol_table.lookup_variable "y" = none := by
  refine ⟨by decide, by decide, by decide, by decide⟩

/-- C2 amended: visit_iteration inserts the loop variable into the current
scope as a Const binding of the element type, validates that type, and
type-checks the start and stop bounds against it; it does not visit the loop
body block — the body (and the inclusive flag) are irrelevant to the result —
and the loop variable lands in the enclosing scope rather than a body-local
one. -/
theorem visit_iteration_behavior (env : TCEnv) (v : Identifier) (ty : LType)
    (start stop : Expression) (inc inc' : Bool) (body body' : Block) (sp : Span)
    (st : TCState) :
    visit_statement env (.iteration v ty start stop inc body sp) st =
      visit_statement env (.iteration v ty start stop inc' body' sp) st
    ∧ visit_statement env (.iteration v ty start stop inc body sp) st =
      some { st with
        symbol_table := (st.symbol_table.insert_variable v.name
          ⟨ty, sp, Declaration.const none⟩).1,
        diags := st.diags
          ++ ((st.symbol_table.insert_variable v.name
            ⟨ty, sp, Declaration.const none⟩).2).toList
          ++ env.validate_ident_type (some ty)
          ++ env.visit_expression start (some ty)
          ++ env.visit_expression stop (some ty) } := by
  constructor
  · rfl
  · simp [visit_statement, visit_iteration, TCState.emit, List.append_assoc]

/-- C4: visit_block is exactly the push/visit-all-in-order/pop composition,
and whenever it completes the scope-stack depth afterwards equals the depth
before, however many diagnostics were emitted inside. -/
theorem visit_block_scope_discipline (env : TCEnv) (stmts : StmtList) (sp : Span)
    (st st' : TCState) :
    (visit_block env (Block.mk stmts sp) st =
      (visit_statements env stmts
          { st with symbol_table := st.symbol_table.push_variable_scope }).map
        (fun st1 => { st1 with symbol_table := st1.symbol_table.pop_variable_scope }))
    ∧ (visit_block env (Block.mk stmts sp) st = some st' →
        st'.symbol_table.scopes.length = st.symbol_table.scopes.length) := by
  constructor
  · rw [visit_block]
    cases hx : visit_statements env stmts
        { st with symbol_table := st.symbol_table.push_variable_scope } <;> simp [hx]
  · exact visit_block_depth env (Block.mk stmts sp) st st'

/-- Witness for C4 at a concrete block holding a definition and a nested
block: the visit completes and the scope depth is restored. -/
theorem visit_block_scope_discipline_witness :
    visit_block envMark (Block.mk stmts0 sp0) stEmpty = some stAfterBlock
    ∧ stAfterBlock.symbol_table.scopes.length = stEmpty.symbol_table.scopes.length :=
  ⟨by decide,
    (visit_block_scope_discipline envMark stmts0 sp0 stEmpty stAfterBlock).2 (by decide)⟩

/-- C5: an assignment to a binding declared Const emits the
cannot-assign-to-const-variable error, an assignment to a Const-mode Input
binding emits the cannot-assign-to-const-input error, and in both cases the
right-hand side is still validated and type-checked against the binding's
declared type; when the assignee does not resolve, the unknown-variable error
is emitted and the right-hand side is not type-checked. -/
theorem visit_assign_behavior (env : TCEnv) (a : AssignStatement) (st : TCState) :
    (∀ var pv, st.symbol_table.lookup_variable a.assignee.identifier.name = some var →
      var.declaration = Declaration.const pv →
      visit_statement env (.assign a) st =
        some (st.emit ([TCDiag.cannotAssignToConstVar a.assignee.identifier.name var.span]
          ++ env.validate_ident_type (some var.type_)
          ++ env.visit_expression a.value (some var.type_))))
    ∧ (∀ var, st.symbol_table.lookup_variable a.assignee.identifier.name = some var →
      var.declaration = Declaration.input ParamMode.const →
      visit_statement env (.assign a) st =
        some (st.emit ([TCDiag.cannotAssignToConstInput a.assignee.identifier.name var.span]
          ++ env.validate_ident_type (some var.type_)
          ++ env.visit_expression a.value (some var.type_))))
    ∧ (st.symbol_table.lookup_variable a.assignee.identifier.name = none →
      visit_statement env (.assign a) st =
        some (st.emit [TCDiag.unknownSym "variable" a.assignee.identifier.name
          a.assignee.span])) := by
  refine ⟨?_, ?_, ?_⟩
  · intro var pv h hd
    rw [visit_statement]
    simp [visit_assign, h, hd, TCState.emit, List.append_assoc]
  · intro var h hd
    rw [visit_statement]
    simp [visit_assign, h, hd, TCState.emit, List.append_assoc]
  · intro h
    rw [visit_statement]
    simp [visit_assign, h, TCState.emit]

/-- Witness for C5 at the assignment c = 2 where c is a Const u8 binding: the
const error is emitted and the right-hand side is still checked against u8
(the marker diagnostic). -/
theorem visit_assign_behavior_witness :
    visit_statement envMark (.assign assignC) stConstX =
      some (stConstX.emit ([TCDiag.cannotAssignToConstVar "c" sp0]
        ++ envMark.validate_ident_type (some (.integer .u8))
        ++ envMark.visit_expression assignC.value (some (.integer .u8)))) :=
  (visit_assign_behavior envMark assignC stConstX).1 symC none (by decide) (by decide)
